import Mathlib

/-!
Verification of the resource-lifecycle / credential core of the `dim` media
catalog service against its specification.

The development shallowly embeds the two source files
`src/database/src/user.rs` and `src/dim/src/routes/library.rs`.
Collaborating code that lives in the repository but outside those files
(the `database` crate's `library.rs`, the `ring` PBKDF2 primitive, the
`base64` codec, serde serialization, the tokio writer mutex) is modelled
from the specification; each such definition carries a doc comment saying
so.  Database tables are lists of rows, transactions are explicit
state-passing, panics are `Option.none`, and the spawned background tasks
are explicit values returned by the request handlers.
-/

/- ===================== Credential hasher (user.rs) ===================== -/

/-- Modelled from the spec: the `base64` crate's encoder (not under `src/`).
The digest bytes are encoded injectively: each byte becomes a unary run of
`a` characters closed by one `b` terminator.  What matters for the claims is
only that encoding is injective, decodable, and that decoding rejects
malformed strings. -/
def base64_encodeNat (n : Nat) : List Char :=
  List.replicate n 'a' ++ ['b']

/-- Modelled from the spec: `base64::encode` on a byte sequence. -/
def base64_encode (bs : List Nat) : String :=
  String.mk (bs.map base64_encodeNat).flatten

/-- Modelled from the spec: the decoding loop of `base64::decode`; `k` is
the length of the unary run read so far, and any character outside the
alphabet — or a dangling run with no terminator — makes the input
malformed. -/
def base64_decodeAux : List Char → Nat → Option (List Nat)
  | [], k => if k = 0 then some [] else none
  | c :: rest, k =>
    if c = 'a' then base64_decodeAux rest (k + 1)
    else if c = 'b' then
      match base64_decodeAux rest 0 with
      | some ns => some (k :: ns)
      | none => none
    else none

/-- Modelled from the spec: `base64::decode` on a stored digest string,
returning `none` on a string that is not a valid encoding (the `base64`
crate returns `Err` there). -/
def base64_decode (s : String) : Option (List Nat) :=
  base64_decodeAux s.data 0

/-- Modelled from the spec: `ring::pbkdf2::derive` with `PBKDF2_HMAC_SHA256`
and the fixed 1000-round count, as §4.5 describes it — a deterministic keyed
derivation for which the spec asserts that distinct `(salt, secret)` pairs
yield distinct digests, so the model is an injective encoding of the pair:
the salt length, the salt's scalar values, then the secret's scalar
values. -/
def pbkdf2_derive (salt s : String) : List Nat :=
  salt.length :: (salt.data.map Char.toNat ++ s.data.map Char.toNat)

/-- Modelled from the spec: `ring::pbkdf2::verify`, which re-derives from the
salt and the attempted secret and compares with the previously derived
bytes (constant-time in `ring`; timing is outside the embedding). -/
def pbkdf2_verify (salt attempted : String) (stored : List Nat) : Bool :=
  decide (pbkdf2_derive salt attempted = stored)

/-- Embedding of `hash` (src/database/src/user.rs:407-417): derive from the
salt and secret, then base64-encode the credential bytes. -/
def hash (salt s : String) : String :=
  base64_encode (pbkdf2_derive salt s)

/-- Embedding of `verify` (src/database/src/user.rs:419-430).  The source
runs `base64::decode(&password).unwrap()`: on a stored digest that is not
valid base64 the `unwrap` panics, which the embedding models as `none`;
otherwise the result is `ring::pbkdf2::verify(..).is_ok()`. -/
def verify (salt password attempted_password : String) : Option Bool :=
  match base64_decode password with
  | none => none
  | some real_pwd => some (pbkdf2_verify salt attempted_password real_pwd)

/- Round-trip of the base64 model. -/

theorem base64_decodeAux_replicate (n : Nat) (l : List Char) (k : Nat) :
    base64_decodeAux (List.replicate n 'a' ++ l) k = base64_decodeAux l (k + n) := by
  induction n generalizing k with
  | zero => simp
  | succ m ih =>
    rw [List.replicate_succ, List.cons_append]
    simp only [base64_decodeAux, if_pos rfl]
    rw [ih, show k + 1 + m = k + (m + 1) by omega]
    simp

theorem base64_decodeAux_encode (bs : List Nat) :
    base64_decodeAux (bs.map base64_encodeNat).flatten 0 = some bs := by
  induction bs with
  | nil => rfl
  | cons n rest ih =>
    rw [List.map_cons, List.flatten_cons]
    rw [show base64_encodeNat n ++ (rest.map base64_encodeNat).flatten =
          List.replicate n 'a' ++ ('b' :: (rest.map base64_encodeNat).flatten) by
        simp [base64_encodeNat]]
    rw [base64_decodeAux_replicate]
    simp [base64_decodeAux, ih]

theorem base64_decode_encode (bs : List Nat) :
    base64_decode (base64_encode bs) = some bs :=
  base64_decodeAux_encode bs

/- Injectivity of the derivation model in the secret, for a fixed salt. -/

theorem char_toNat_injective : Function.Injective Char.toNat := by
  intro a b h
  exact Char.eq_of_val_eq (UInt32.eq_of_toBitVec_eq (BitVec.eq_of_toNat_eq h))

theorem string_data_eq {s t : String} (h : s.data = t.data) : s = t := by
  cases s; cases t; exact congrArg String.mk h

theorem pbkdf2_derive_injective (salt s t : String)
    (h : pbkdf2_derive salt s = pbkdf2_derive salt t) : s = t := by
  unfold pbkdf2_derive at h
  injection h with h1 h2
  have h3 := List.append_cancel_left h2
  exact string_data_eq (List.map_injective_iff.mpr char_toNat_injective h3)

/-- C2: counterexample — the stored digest `"!!!"` is not a valid encoding,
and `verify` does not return `false` there: `base64::decode(..).unwrap()`
panics, modelled as `none`.  The claim that `verify` returns a boolean
(false on malformed input) and never panics is therefore false. -/
theorem C2_counterexample : verify "x" "!!!" "y" = none := by decide

/-- C2 (amended): for every salt, attempted secret and stored digest, if the
stored digest decodes then `verify` returns a boolean — the result of the
PBKDF2 comparison, `false` on mismatch — without panicking; if the stored
digest is not validly encoded, `verify` panics in the `unwrap` (modelled
`none`) instead of failing closed. -/
theorem C2_verify_amended (salt digest att : String) :
    (∀ bs, base64_decode digest = some bs →
      verify salt digest att = some (pbkdf2_verify salt att bs)) ∧
    (base64_decode digest = none → verify salt digest att = none) := by
  constructor
  · intro bs h
    simp [verify, h]
  · intro h
    simp [verify, h]

/-- Witness for C2 (amended) at concrete inputs: a well-formed digest yields
`some true`, the malformed digest `"!!!"` yields `none`. -/
theorem C2_witness :
    verify "x" (hash "x" "pw") "pw" = some true ∧ verify "x" "!!!" "pw" = none :=
  ⟨by
    rw [(C2_verify_amended "x" (hash "x" "pw") "pw").1 (pbkdf2_derive "x" "pw")
      (base64_decode_encode _)]
    simp [pbkdf2_verify],
   (C2_verify_amended "x" "!!!" "pw").2 (by decide)⟩

/-- C3: for every salt and secret, `verify salt (hash salt secret) secret`
succeeds with `true`; for every distinct attempted secret it returns
`false`; and `hash` is deterministic — equal salts and secrets always yield
the same digest. -/
theorem C3_hash_verify (salt s s2 : String) :
    verify salt (hash salt s) s = some true ∧
    (s2 ≠ s → verify salt (hash salt s) s2 = some false) ∧
    (∀ salt2 t, salt2 = salt → t = s → hash salt2 t = hash salt s) := by
  have hash_eq : ∀ a b : String, hash a b = base64_encode (pbkdf2_derive a b) :=
    fun _ _ => rfl
  refine ⟨?_, ?_, ?_⟩
  · simp [verify, hash_eq, base64_decode_encode, pbkdf2_verify]
  · intro hne
    simp only [verify, hash_eq, base64_decode_encode]
    simp only [pbkdf2_verify, Option.some.injEq, decide_eq_false_iff_not]
    intro heq
    exact hne (pbkdf2_derive_injective salt s2 s heq)
  · intro salt2 t h1 h2
    rw [h1, h2]

/-- Witness for C3 at concrete inputs: the right secret verifies, a
different secret is rejected. -/
theorem C3_witness :
    verify "u" (hash "u" "pw") "pw" = some true ∧
    verify "u" (hash "u" "pw") "pw2" = some false :=
  ⟨(C3_hash_verify "u" "pw" "pw2").1, (C3_hash_verify "u" "pw" "pw2").2.1 (by decide)⟩

/- ================== User store: accounts and invites (user.rs) ================== -/

/-- Theme of the app (src/database/src/user.rs:18-23). -/
inductive Theme
  | Light
  | Dark
  | Black
deriving DecidableEq

/-- Default video quality (src/database/src/user.rs:37-44). -/
inductive DefaultVideoQuality
  | DirectPlay
  | Resolution (resolution bitrate : Nat)
deriving DecidableEq

/-- User settings blob (src/database/src/user.rs:46-72); the `HashMap` of
external args is carried as an association list. -/
structure UserSettings where
  theme : Theme
  is_sidebar_compact : Bool
  show_card_names : Bool
  filebrowser_default_path : Option String
  filebrowser_list_view : Bool
  default_subtitle_language : Option String
  default_audio_language : Option String
  default_video_quality : DefaultVideoQuality
  external_args : List (String × String)
  show_hovercards : Bool
deriving DecidableEq

/-- Serialization helper: a string as length-prefixed scalar values. -/
def strBytes (s : String) : List Nat :=
  s.length :: s.data.map Char.toNat

/-- Serialization helper: an optional string with a presence tag. -/
def optStrBytes : Option String → List Nat
  | none => [0]
  | some s => 1 :: strBytes s

/-- Modelled from the spec: `serde_json::to_vec` on the preferences blob
(the serde crates are not under `src/`): a deterministic byte encoding of
the settings; only its determinism and the column it is written to matter
for the claims. -/
def serde_json_to_vec (p : UserSettings) : List Nat :=
  (match p.theme with | .Light => 0 | .Dark => 1 | .Black => 2) ::
  (if p.is_sidebar_compact then 1 else 0) ::
  (if p.show_card_names then 1 else 0) ::
  optStrBytes p.filebrowser_default_path ++
  (if p.filebrowser_list_view then 1 else 0) ::
  optStrBytes p.default_subtitle_language ++
  optStrBytes p.default_audio_language ++
  (match p.default_video_quality with
   | .DirectPlay => [0]
   | .Resolution r b => [1, r, b]) ++
  (p.external_args.map (fun kv => strBytes kv.1 ++ strBytes kv.2)).flatten ++
  [if p.show_hovercards then 1 else 0]

/-- A row of the `users` table (§6 persisted layout: unique username, salted
digest, serialized preferences blob, claimed invite, roles, picture). -/
structure UserRow where
  username : String
  password : String
  prefs : List Nat
  claimed_invite : String
  roles : String
  picture : Option Int
deriving DecidableEq

/-- A row of the `invites` table (`INSERT INTO invites (id, date_added)`,
src/database/src/user.rs:368-374). -/
structure InviteRow where
  id : String
  date_added : Int
deriving DecidableEq

/-- Payload of a preferences update (src/database/src/user.rs:290-293). -/
structure UpdateableUser where
  prefs : Option UserSettings

/-- Embedding of `UpdateableUser::update` (src/database/src/user.rs:296-314):
with `prefs = Some p` it runs `UPDATE users SET prefs = $1 WHERE
users.username = ?2` and returns the affected row count; with `prefs = None`
it touches nothing and returns `Ok(0)`. -/
def UpdateableUser.update (u : UpdateableUser) (users : List UserRow)
    (user : String) : List UserRow × Nat :=
  match u.prefs with
  | some p =>
    let bytes := serde_json_to_vec p
    (users.map fun r => if r.username = user then { r with prefs := bytes } else r,
     (users.filter fun r => r.username = user).length)
  | none => (users, 0)

/-- Login payload (src/database/src/user.rs:317-322). -/
structure Login where
  username : String
  password : String
  invite_token : Option String

/-- Embedding of `Login::invite_token_valid` (src/database/src/user.rs:326-346):
`None` token is invalid; otherwise run `SELECT id FROM invites WHERE id NOT
IN (SELECT claimed_invite FROM users) AND id = ?` and test whether a row
came back. -/
def Login.invite_token_valid (l : Login) (invites : List InviteRow)
    (users : List UserRow) : Bool :=
  match l.invite_token with
  | none => false
  | some tok =>
    invites.any fun i => (users.all fun u => u.claimed_invite != i.id) && i.id == tok

/-- Embedding of `Login::invalidate_token` (src/database/src/user.rs:348-360):
`DELETE FROM invites WHERE id = ?` on the login's own token, unconditional
on claiming; `None` token deletes nothing. -/
def Login.invalidate_token (l : Login) (invites : List InviteRow) :
    List InviteRow × Nat :=
  match l.invite_token with
  | none => (invites, 0)
  | some tok =>
    (invites.filter fun i => !(i.id == tok),
     (invites.filter fun i => i.id == tok).length)

/-- Embedding of `Login::delete_token` (src/database/src/user.rs:390-404):
`DELETE FROM invites WHERE id NOT IN (SELECT claimed_invite FROM users) AND
id = ?`, returning the number of rows removed. -/
def Login.delete_token (invites : List InviteRow) (users : List UserRow)
    (token : String) : List InviteRow × Nat :=
  (invites.filter fun i =>
     !((users.all fun u => u.claimed_invite != i.id) && i.id == token),
   (invites.filter fun i =>
     (users.all fun u => u.claimed_invite != i.id) && i.id == token).length)

/- Pointwise evaluation of the `delete_token` WHERE clause. -/

theorem delete_cond_claimed (users : List UserRow) (token : String)
    (h : (users.any fun u => u.claimed_invite == token) = true) (i : InviteRow) :
    ((users.all fun u => u.claimed_invite != i.id) && i.id == token) = false := by
  by_cases hid : i.id = token
  · cases hall : users.all fun u => u.claimed_invite != i.id with
    | false => simp [hall]
    | true =>
      rw [List.any_eq_true] at h
      obtain ⟨u, hu, hcl⟩ := h
      rw [List.all_eq_true] at hall
      have := hall u hu
      rw [bne_iff_ne] at this
      rw [beq_iff_eq] at hcl
      exact absurd (hcl.trans hid.symm) this
  · have : (i.id == token) = false := by
      rw [beq_eq_false_iff_ne]
      exact hid
    simp [this]

theorem delete_cond_unclaimed (users : List UserRow) (token : String)
    (h : (users.any fun u => u.claimed_invite == token) = false) (i : InviteRow) :
    ((users.all fun u => u.claimed_invite != i.id) && i.id == token) =
      (i.id == token) := by
  by_cases hid : i.id = token
  · have hall : (users.all fun u => u.claimed_invite != i.id) = true := by
      rw [List.all_eq_true]
      intro u hu
      rw [List.any_eq_false] at h
      have := h u hu
      rw [bne_iff_ne, hid]
      intro heq
      exact this (by rw [beq_iff_eq]; exact heq)
    simp [hall]
  · have : (i.id == token) = false := by
      rw [beq_eq_false_iff_ne]
      exact hid
    simp [this]

/-- C6: `invite_token_valid` is true exactly when the login carries a token
that is present in the invites table and that no account's claimed-invite
field equals; absent or claimed tokens (and a missing token) yield false. -/
theorem C6_invite_token_valid (l : Login) (invites : List InviteRow)
    (users : List UserRow) :
    Login.invite_token_valid l invites users = true ↔
      ∃ tok, l.invite_token = some tok ∧ (∃ i ∈ invites, i.id = tok) ∧
        ∀ u ∈ users, u.claimed_invite ≠ tok := by
  cases htok : l.invite_token with
  | none => simp [Login.invite_token_valid, htok]
  | some tok =>
    simp only [Login.invite_token_valid, htok, List.any_eq_true, Bool.and_eq_true,
      List.all_eq_true, beq_iff_eq, bne_iff_ne, Option.some.injEq]
    constructor
    · rintro ⟨i, hi, hall, hid⟩
      exact ⟨tok, rfl, ⟨i, hi, hid⟩, fun u hu => hid ▸ hall u hu⟩
    · rintro ⟨tok', htok', ⟨i, hi, hid⟩, hall⟩
      subst htok'
      exact ⟨i, hi, fun u hu => hid.symm ▸ hall u hu, hid⟩

/-- Witness for C6: a token present in the invites table and claimed by no
account is reported valid. -/
theorem C6_witness :
    Login.invite_token_valid ⟨"a", "p", some "t"⟩ [⟨"t", 0⟩] [] = true :=
  (C6_invite_token_valid ⟨"a", "p", some "t"⟩ [⟨"t", 0⟩] []).mpr
    ⟨"t", rfl, ⟨⟨"t", 0⟩, by simp, rfl⟩, by simp⟩

/-- C7: counterexample — one invite `"t"` exists and the account has
`claimed_invite = "t"`; `delete_token` removes nothing and reports 0, so
revocation through `delete_token` is not independent of claiming. -/
theorem C7_counterexample :
    Login.delete_token [⟨"t", 0⟩] [⟨"alice", "h", [], "t", "owner", none⟩] "t" =
      ([⟨"t", 0⟩], 0) := by decide

/-- C7 (amended): `delete_token` removes the token and reports the rows
removed only when no account's claimed-invite equals it; when some account
has claimed the token, it removes nothing and reports 0.  (The
unconditional removal the spec calls `invalidate` is `invalidate_token`.) -/
theorem C7_delete_token_amended (invites : List InviteRow) (users : List UserRow)
    (token : String) :
    Login.delete_token invites users token =
      if (users.any fun u => u.claimed_invite == token) = true then (invites, 0)
      else (invites.filter fun i => !(i.id == token),
            (invites.filter fun i => i.id == token).length) := by
  unfold Login.delete_token
  by_cases h : (users.any fun u => u.claimed_invite == token) = true
  · rw [if_pos h]
    rw [List.filter_congr (fun i _ => congrArg (! ·) (delete_cond_claimed users token h i)),
      List.filter_congr (fun i _ => delete_cond_claimed users token h i)]
    simp
  · rw [if_neg h]
    rw [Bool.not_eq_true] at h
    rw [List.filter_congr (fun i _ => congrArg (! ·) (delete_cond_unclaimed users token h i)),
      List.filter_congr (fun i _ => delete_cond_unclaimed users token h i)]

/-- Witness for C7 (amended): with no accounts, `delete_token` removes the
matching invite and reports 1. -/
theorem C7_witness :
    Login.delete_token [⟨"t", 0⟩, ⟨"s", 1⟩] [] "t" = ([⟨"s", 1⟩], 1) := by
  rw [C7_delete_token_amended [⟨"t", 0⟩, ⟨"s", 1⟩] [] "t"]
  decide

/-- C10: `UpdateableUser::update` with `prefs = None` returns 0 and leaves
the users table untouched; with `prefs = Some p` it rewrites exactly the
prefs column of the rows whose username matches — every other column of
every row, and every non-matching row, is unchanged — and reports the
number of matching rows. -/
theorem C10_update_frame (u : UpdateableUser) (users : List UserRow)
    (user : String) :
    (u.prefs = none → UpdateableUser.update u users user = (users, 0)) ∧
    (∀ p, u.prefs = some p →
      (UpdateableUser.update u users user).1.length = users.length ∧
      (UpdateableUser.update u users user).2 =
        (users.filter fun r => r.username = user).length ∧
      ∀ (i : Nat) (r : UserRow), users[i]? = some r →
        ∃ r', (UpdateableUser.update u users user).1[i]? = some r' ∧
          r'.username = r.username ∧ r'.password = r.password ∧
          r'.claimed_invite = r.claimed_invite ∧ r'.roles = r.roles ∧
          r'.picture = r.picture ∧
          (r.username ≠ user → r' = r) ∧
          (r.username = user → r'.prefs = serde_json_to_vec p)) := by
  constructor
  · intro h
    simp [UpdateableUser.update, h]
  · intro p hp
    refine ⟨by simp [UpdateableUser.update, hp], by simp [UpdateableUser.update, hp], ?_⟩
    intro i r hir
    refine ⟨if r.username = user then { r with prefs := serde_json_to_vec p } else r,
      ?_, ?_⟩
    · simp only [UpdateableUser.update, hp, List.getElem?_map, hir, Option.map_some]
      rfl
    · by_cases hr : r.username = user <;> simp [hr]

/-- Witness for C10: a `None` update leaves a one-row table unchanged and
reports 0, and a `Some` update rewrites only the prefs column. -/
theorem C10_witness :
    UpdateableUser.update ⟨none⟩ [⟨"a", "p", [], "t", "owner", none⟩] "a" =
      ([⟨"a", "p", [], "t", "owner", none⟩], 0) :=
  (C10_update_frame ⟨none⟩ [⟨"a", "p", [], "t", "owner", none⟩] "a").1 rfl

/- ============ Library lifecycle (routes/library.rs + database crate) ============ -/

/-- Modelled from the spec (§3 data model): a resource (library) row with
its identity, name and hidden flag; the `database` crate's `library.rs` is
not under `src/`. -/
structure Library where
  id : Int
  name : String
  hidden : Bool
deriving DecidableEq

/-- Modelled from the spec (§3): a dependent media record referencing one
library by id. -/
structure Media where
  id : Int
  library_id : Int
deriving DecidableEq

/-- Modelled from the spec (§3): a dependent media-file record referencing
one library by id. -/
structure MediaFile where
  id : Int
  library_id : Int
deriving DecidableEq

/-- The backing store: the resource table and its dependent tables (§6
persisted layout). -/
structure Store where
  libraries : List Library
  media : List Media
  mediafiles : List MediaFile
deriving DecidableEq

/-- Modelled from the spec (§4.2): `Library::mark_hidden` sets the hidden
flag on the not-yet-hidden row with the given id inside the writer
transaction and returns the count of rows transitioned (0 or 1; 0 when the
resource is absent or already hidden). -/
def Library.mark_hidden (st : Store) (id : Int) : Store × Nat :=
  ({ st with
      libraries := st.libraries.map fun l =>
        if l.id == id && !l.hidden then { l with hidden := true } else l },
   (st.libraries.filter fun l => l.id == id && !l.hidden).length)

/-- Modelled from the spec (§4.2, §6): `Library::get_all` lists the
resources, excluding hidden ones from all read paths. -/
def Library.get_all (st : Store) : List Library :=
  st.libraries.filter fun l => !l.hidden

/-- Modelled from the spec (§4.3): the cascade's `Library::delete` removes
the resource row itself. -/
def Library.delete (st : Store) (id : Int) : Store × Nat :=
  ({ st with libraries := st.libraries.filter fun l => !(l.id == id) },
   (st.libraries.filter fun l => l.id == id).length)

/-- Modelled from the spec (§4.3): `Media::delete_by_lib_id` removes all
dependent media records of the library. -/
def Media.delete_by_lib_id (st : Store) (id : Int) : Store × Nat :=
  ({ st with media := st.media.filter fun m => !(m.library_id == id) },
   (st.media.filter fun m => m.library_id == id).length)

/-- Modelled from the spec (§4.3): `MediaFile::delete_by_lib_id` removes all
dependent media-file records of the library. -/
def MediaFile.delete_by_lib_id (st : Store) (id : Int) : Store × Nat :=
  ({ st with mediafiles := st.mediafiles.filter fun f => !(f.library_id == id) },
   (st.mediafiles.filter fun f => f.library_id == id).length)

/-- Push event types used by the two handlers (the `events` crate is not
under `src/`; variants as named at src/dim/src/routes/library.rs:187,245). -/
inductive PushEventType
  | EventNewLibrary
  | EventRemoveLibrary
deriving DecidableEq

/-- Lifecycle event message (src/dim/src/routes/library.rs:185-188,243-246). -/
structure Message where
  id : Int
  event_type : PushEventType
deriving DecidableEq

/-- The error returned by `library_delete` when no row transitioned
(src/dim/src/routes/library.rs:218; the `errors` crate is not under `src/`,
only the variant used here is modelled). -/
inductive DimError
  | LibraryNotFound
deriving DecidableEq

/-- Everything observable about one `library_delete` request: the HTTP-level
result, whether the mark-hidden transaction committed, the store it left
behind, the spawned cascade task and the published event. -/
structure DeleteOutcome where
  response : Except DimError Unit
  committed : Bool
  store : Store
  spawned_cascade : Option Int
  event : Option Message

/-- Embedding of `library_delete` (src/dim/src/routes/library.rs:207-253):
acquire the writer, mark the library hidden; if fewer than 1 rows
transitioned, return `LibraryNotFound` with the transaction dropped
(rolled back, nothing committed); otherwise commit, release the writer,
publish the `EventRemoveLibrary` message and spawn the cascade task for the
id, answering 204. -/
def library_delete (st : Store) (id : Int) : DeleteOutcome :=
  let p := Library.mark_hidden st id
  if p.2 < 1 then
    { response := .error .LibraryNotFound, committed := false, store := st,
      spawned_cascade := none, event := none }
  else
    { response := .ok (), committed := true, store := p.1,
      spawned_cascade := some id,
      event := some { id := id, event_type := .EventRemoveLibrary } }

/-- Embedding of `library_get` (src/dim/src/routes/library.rs:147-157): read
all libraries and sort them by name (`x.sort_by(|a, b| a.name.cmp(&b.name))`,
a stable ascending sort modelled by insertion sort). -/
def library_get (st : Store) : List Library :=
  List.insertionSort (fun a b => a.name ≤ b.name) (Library.get_all st)

/- After a successful mark-hidden, no row with that id can transition again. -/

theorem mark_hidden_map_twice (ls : List Library) (id : Int) :
    (List.filter (fun l => l.id == id && !l.hidden)
      (ls.map fun l => if l.id == id && !l.hidden then { l with hidden := true } else l))
      = [] := by
  rw [List.filter_eq_nil_iff]
  intro a ha
  rw [List.mem_map] at ha
  obtain ⟨l, _, rfl⟩ := ha
  by_cases h : (l.id == id && !l.hidden) = true
  · rw [if_pos h]
    simp
  · rw [if_neg h]
    rw [Bool.not_eq_true] at h
    simp [h]

theorem mark_hidden_twice (st : Store) (id : Int) :
    (Library.mark_hidden (Library.mark_hidden st id).1 id).2 = 0 := by
  simp only [Library.mark_hidden, mark_hidden_map_twice, List.length_nil]

theorem library_delete_not_found (st : Store) (id : Int)
    (h : (Library.mark_hidden st id).2 = 0) :
    (library_delete st id).response = .error .LibraryNotFound := by
  have hlt : (Library.mark_hidden st id).2 < 1 := by omega
  simp [library_delete, hlt]

/-- C1: `library_delete` succeeds exactly when `mark_hidden` reports at
least one transitioned row; when it reports 0 the handler fails with
`LibraryNotFound`, commits nothing and leaves the store untouched; hence a
second delete of the same id returns `LibraryNotFound` rather than
success. -/
theorem C1_delete_iff_marked (st : Store) (id : Int) :
    ((library_delete st id).response = .ok () ↔ 1 ≤ (Library.mark_hidden st id).2) ∧
    ((Library.mark_hidden st id).2 = 0 →
      (library_delete st id).response = .error .LibraryNotFound ∧
      (library_delete st id).committed = false ∧
      (library_delete st id).store = st) ∧
    ((library_delete st id).response = .ok () →
      (library_delete (library_delete st id).store id).response =
        .error .LibraryNotFound) := by
  refine ⟨?_, ?_, ?_⟩
  · constructor
    · intro hc
      by_contra hlt
      have h : (Library.mark_hidden st id).2 < 1 := by omega
      simp [library_delete, h] at hc
    · intro hge
      have h : ¬(Library.mark_hidden st id).2 < 1 := by omega
      simp [library_delete, h]
  · intro h0
    have h : (Library.mark_hidden st id).2 < 1 := by omega
    simp [library_delete, h]
  · intro hok
    by_cases h : (Library.mark_hidden st id).2 < 1
    · simp [library_delete, h] at hok
    · have hstore : (library_delete st id).store = (Library.mark_hidden st id).1 := by
        simp [library_delete, h]
      exact library_delete_not_found _ _ (by rw [hstore]; exact mark_hidden_twice st id)

/-- Witness for C1 at a one-library store: the first delete succeeds, the
second returns `LibraryNotFound`. -/
theorem C1_witness :
    (library_delete (library_delete ⟨[⟨1, "Movies", false⟩], [], []⟩ 1).store
        1).response = .error .LibraryNotFound :=
  (C1_delete_iff_marked ⟨[⟨1, "Movies", false⟩], [], []⟩ 1).2.2 rfl

/- Sorting relation instances for §6 listResources. -/

instance : IsTotal Library (fun a b => a.name ≤ b.name) :=
  ⟨fun a b => le_total a.name b.name⟩

instance : IsTrans Library (fun a b => a.name ≤ b.name) :=
  ⟨fun _ _ _ h1 h2 => le_trans h1 h2⟩

/-- C9: `library_get` returns exactly the libraries of `Library::get_all`
(as a permutation — nothing added, nothing dropped) in ascending order by
name. -/
theorem C9_library_get_sorted (st : Store) :
    (library_get st).Perm (Library.get_all st) ∧
    (library_get st).Sorted (fun a b => a.name ≤ b.name) :=
  ⟨List.perm_insertionSort _ _, List.sorted_insertionSort _ _⟩

/- The cascade task spawned by library_delete, with failure injection. -/

/-- The four fallible store operations inside the cascade transaction
(src/dim/src/routes/library.rs:225-230). -/
inductive CascadeStep
  | delete_library
  | delete_media
  | delete_mediafiles
  | commit_cascade
deriving DecidableEq

/-- The cascade transaction body (the `inner` future,
src/dim/src/routes/library.rs:224-234): acquire a fresh writer, delete the
library row, its media, its media files, commit.  `fail` injects an error at
one of the fallible steps; the `?` operator then aborts the whole
transaction, which is dropped without commit (rolled back). -/
def cascade_tx (fail : Option CascadeStep) (st : Store) (id : Int) :
    Except Unit Store :=
  if fail = some .delete_library then .error () else
  let s1 := (Library.delete st id).1
  if fail = some .delete_media then .error () else
  let s2 := (Media.delete_by_lib_id s1 id).1
  if fail = some .delete_mediafiles then .error () else
  let s3 := (MediaFile.delete_by_lib_id s2 id).1
  if fail = some .commit_cascade then .error () else
  .ok s3

/-- Embedding of `delete_lib_fut` (src/dim/src/routes/library.rs:223-241):
run the cascade transaction; on error, log it (`error!`, the boolean) and
keep the store as it was (rollback); on success, the deletions are
committed and only `info!` is logged. -/
def delete_lib_fut (fail : Option CascadeStep) (st : Store) (id : Int) :
    Store × Bool :=
  match cascade_tx fail st id with
  | .ok s => (s, false)
  | .error _ => (st, true)

/-- A whole delete request together with its detached cascade task: the
caller-visible response, the store after the cascade ran (if one was
spawned), and whether a cascade error was logged. -/
structure RequestOutcome where
  response : Except DimError Unit
  final_store : Store
  cascade_error_logged : Bool

/-- Composition of `library_delete` with the single spawned invocation of
its cascade task (src/dim/src/routes/library.rs:207-253: the future is
spawned once, after the response is already determined). -/
def library_delete_with_cascade (fail : Option CascadeStep) (st : Store)
    (id : Int) : RequestOutcome :=
  let o := library_delete st id
  match o.spawned_cascade with
  | none =>
    { response := o.response, final_store := o.store, cascade_error_logged := false }
  | some lid =>
    let c := delete_lib_fut fail o.store lid
    { response := o.response, final_store := c.1, cascade_error_logged := c.2 }

/-- C4: the caller-visible response of a delete request is the same whatever
the cascade does (same as with no failure injected); any error at any step
of the cascade aborts the whole invocation, leaves the committed post-hide
store unchanged, and is only logged; and once the mark-hidden transaction
committed (success response), the response stays success for every cascade
outcome. -/
theorem C4_cascade_absorbed (st : Store) (id : Int) (fail : Option CascadeStep) :
    (library_delete_with_cascade fail st id).response =
      (library_delete_with_cascade none st id).response ∧
    (∀ c, fail = some c →
      delete_lib_fut fail (library_delete st id).store id =
        ((library_delete st id).store, true)) ∧
    ((library_delete st id).response = .ok () →
      (library_delete_with_cascade fail st id).response = .ok ()) := by
  refine ⟨?_, ?_, ?_⟩
  · cases hsp : (library_delete st id).spawned_cascade with
    | none => simp [library_delete_with_cascade, hsp]
    | some lid => simp [library_delete_with_cascade, hsp]
  · intro c hc
    subst hc
    cases c <;> simp [delete_lib_fut, cascade_tx]
  · intro hok
    cases hsp : (library_delete st id).spawned_cascade with
    | none => simpa [library_delete_with_cascade, hsp] using hok
    | some lid => simpa [library_delete_with_cascade, hsp] using hok

/-- Witness for C4: on a one-library store with a failing media deletion,
the cascade leaves the post-hide store unchanged and logs the error. -/
theorem C4_witness :
    delete_lib_fut (some .delete_media)
        (library_delete ⟨[⟨1, "m", false⟩], [⟨7, 1⟩], []⟩ 1).store 1 =
      ((library_delete ⟨[⟨1, "m", false⟩], [⟨7, 1⟩], []⟩ 1).store, true) :=
  (C4_cascade_absorbed ⟨[⟨1, "m", false⟩], [⟨7, 1⟩], []⟩ 1 (some .delete_media)).2.1
    .delete_media rfl

/- ============ Critical-section traces of the two mutating handlers ============ -/

/-- The observable actions of `library_post` and `library_delete`, in
program order: writer-lock handling, transaction boundaries, the
asynchronous hand-offs (task spawns, event publication) and the HTTP
response. -/
inductive LibAction
  | acquire_writer
  | begin_tx
  | commit_tx
  | release_writer
  | spawn_scanner
  | spawn_cascade
  | publish_event
  | respond
deriving DecidableEq

/-- The fallible steps of `library_post`
(src/dim/src/routes/library.rs:175-177). -/
inductive PostFail
  | write_tx
  | insert_lib
  | commit_lib
deriving DecidableEq

/-- The early-exit points of `library_delete`
(src/dim/src/routes/library.rs:216-220): transaction acquisition failure,
a `mark_hidden` database error, the `< 1` not-found return, and commit
failure. -/
inductive DeleteFail
  | write_tx
  | mark_hidden_err
  | not_found
  | commit_lib
deriving DecidableEq

/-- Action trace of `library_post` (src/dim/src/routes/library.rs:168-193):
lock (174), begin (175), insert (176), commit (177), `drop(lock)` (178),
`tokio::spawn(scanners::start(..))` (183), `event_tx.send(..)` (190),
return (192).  On any `?` failure the transaction and the lock guard are
dropped before the early return, and no spawn or publish happens. -/
def library_post_trace (fail : Option PostFail) : List LibAction :=
  .acquire_writer ::
    match fail with
    | some .write_tx => [.release_writer, .respond]
    | some .insert_lib => [.begin_tx, .release_writer, .respond]
    | some .commit_lib => [.begin_tx, .release_writer, .respond]
    | none =>
      [.begin_tx, .commit_tx, .release_writer, .spawn_scanner, .publish_event,
       .respond]

/-- Action trace of `library_delete` (src/dim/src/routes/library.rs:207-253):
lock (215), begin (216), mark_hidden with its error / not-found early
returns (217-219), commit (220), `drop(lock)` (221), `event_tx.send(..)`
(248), `tokio::spawn(delete_lib_fut)` (250), return (252). -/
def library_delete_trace (fail : Option DeleteFail) : List LibAction :=
  .acquire_writer ::
    match fail with
    | some .write_tx => [.release_writer, .respond]
    | some .mark_hidden_err => [.begin_tx, .release_writer, .respond]
    | some .not_found => [.begin_tx, .release_writer, .respond]
    | some .commit_lib => [.begin_tx, .release_writer, .respond]
    | none =>
      [.begin_tx, .commit_tx, .release_writer, .publish_event, .spawn_cascade,
       .respond]

/-- Checks along a trace that every asynchronous hand-off (task spawn or
event publication) happens while the writer lock is not held; `held` counts
currently held writer locks. -/
def handoff_outside_lock : List LibAction → Nat → Bool
  | [], _ => true
  | a :: rest, held =>
    match a with
    | .acquire_writer => handoff_outside_lock rest (held + 1)
    | .release_writer => handoff_outside_lock rest (held - 1)
    | .spawn_scanner => held == 0 && handoff_outside_lock rest held
    | .spawn_cascade => held == 0 && handoff_outside_lock rest held
    | .publish_event => held == 0 && handoff_outside_lock rest held
    | _ => handoff_outside_lock rest held

/-- Checks along a trace that a writer-lock release precedes (strictly) every
asynchronous hand-off; `released` records whether a release has already
occurred. -/
def release_precedes_handoff : List LibAction → Bool → Bool
  | [], _ => true
  | a :: rest, released =>
    match a with
    | .release_writer => release_precedes_handoff rest true
    | .spawn_scanner => released && release_precedes_handoff rest released
    | .spawn_cascade => released && release_precedes_handoff rest released
    | .publish_event => released && release_precedes_handoff rest released
    | _ => release_precedes_handoff rest released

/-- C8: in every execution of `library_post` and of `library_delete` —
whatever fallible step fails, or none — the writer lock is released, with
the transaction already committed or dropped, strictly before the
background task is spawned and before the lifecycle event is published;
no hand-off ever happens with the lock held. -/
theorem C8_handoff_after_release (pf : Option PostFail) (df : Option DeleteFail) :
    (handoff_outside_lock (library_post_trace pf) 0 = true ∧
     release_precedes_handoff (library_post_trace pf) false = true) ∧
    (handoff_outside_lock (library_delete_trace df) 0 = true ∧
     release_precedes_handoff (library_delete_trace df) false = true) := by
  constructor
  · rcases pf with _ | c
    · decide
    · cases c <;> decide
  · rcases df with _ | c
    · decide
    · cases c <;> decide

/- ================= Writer arbiter: mutual exclusion (spec §4.1) ================= -/

/-- Phase of one request task (a `library_post`, `library_delete` or cascade
invocation) with respect to the writer lock: not interested, blocked in
`conn.writer().lock_owned().await`, or inside the writer transaction. -/
inductive TaskPhase
  | idle
  | waiting
  | critical
deriving DecidableEq

/-- Modelled from the spec (§4.1, §5): the state of the connection arbiter —
the single writable handle's lock flag plus the phases of the request
tasks, indexed by position. -/
structure ArbState where
  locked : Bool
  phases : List TaskPhase
deriving DecidableEq

/-- Number of tasks currently holding an open writer transaction. -/
def countCritical (ps : List TaskPhase) : Nat :=
  (ps.filter (· == .critical)).length

/-- Modelled from the spec (§4.1): the arbiter's transitions.  A task may
start waiting for the writer; a waiting task acquires the lock only when it
is free (tokio `Mutex::lock_owned` semantics); a task in its critical
section releases the lock when its guard is dropped. -/
inductive ArbStep : ArbState → ArbState → Prop
  | request (s : ArbState) (i : Nat) (h : s.phases[i]? = some .idle) :
      ArbStep s ⟨s.locked, s.phases.set i .waiting⟩
  | acquire (s : ArbState) (i : Nat) (hl : s.locked = false)
      (h : s.phases[i]? = some .waiting) :
      ArbStep s ⟨true, s.phases.set i .critical⟩
  | release (s : ArbState) (i : Nat) (h : s.phases[i]? = some .critical) :
      ArbStep s ⟨false, s.phases.set i .idle⟩

/-- States reachable from a given initial state by arbiter transitions,
under any interleaving. -/
inductive ArbReachable (init : ArbState) : ArbState → Prop
  | refl : ArbReachable init init
  | step {s t : ArbState} : ArbReachable init s → ArbStep s t → ArbReachable init t

/-- The system starts with the writer lock free and all tasks idle. -/
def ArbInit (n : Nat) : ArbState :=
  ⟨false, List.replicate n .idle⟩

theorem countCritical_cons (x : TaskPhase) (l : List TaskPhase) :
    countCritical (x :: l) = (if x = .critical then 1 else 0) + countCritical l := by
  by_cases hx : x = .critical
  · simp [countCritical, List.filter_cons, hx, Nat.add_comm]
  · simp [countCritical, List.filter_cons, hx]

theorem countCritical_set (ps : List TaskPhase) (i : Nat) (a b : TaskPhase)
    (h : ps[i]? = some a) :
    countCritical (ps.set i b) + (if a = .critical then 1 else 0) =
      countCritical ps + (if b = .critical then 1 else 0) := by
  induction ps generalizing i with
  | nil => simp at h
  | cons c rest ih =>
    cases i with
    | zero =>
      simp only [List.getElem?_cons_zero, Option.some.injEq] at h
      subst h
      simp only [List.set_cons_zero, countCritical_cons]
      omega
    | succ j =>
      simp only [List.getElem?_cons_succ] at h
      simp only [List.set_cons_succ, countCritical_cons]
      have := ih j h
      omega

theorem countCritical_pos (ps : List TaskPhase) (i : Nat)
    (h : ps[i]? = some .critical) : 1 ≤ countCritical ps := by
  induction ps generalizing i with
  | nil => simp at h
  | cons c rest ih =>
    cases i with
    | zero =>
      simp only [List.getElem?_cons_zero, Option.some.injEq] at h
      subst h
      simp [countCritical_cons]
    | succ j =>
      simp only [List.getElem?_cons_succ] at h
      have := ih j h
      rw [countCritical_cons]
      omega

/-- The inductive invariant of the arbiter: at most one task is in its
critical section, and none is when the lock is free. -/
def ArbInv (s : ArbState) : Prop :=
  countCritical s.phases ≤ 1 ∧ (s.locked = false → countCritical s.phases = 0)

theorem ArbInv_init (n : Nat) : ArbInv (ArbInit n) := by
  have hz : countCritical (List.replicate n .idle) = 0 := by
    induction n with
    | zero => rfl
    | succ m ih => simp [List.replicate_succ, countCritical_cons, ih]
  exact ⟨by rw [show (ArbInit n).phases = List.replicate n .idle from rfl, hz]; omega,
    fun _ => hz⟩

theorem ArbInv_step {s t : ArbState} (hs : ArbInv s) (hst : ArbStep s t) :
    ArbInv t := by
  cases hst with
  | request i h =>
    have hc := countCritical_set s.phases i .idle .waiting h
    simp at hc
    refine ⟨?_, ?_⟩
    · show countCritical (s.phases.set i .waiting) ≤ 1
      rw [hc]
      exact hs.1
    · intro hl
      show countCritical (s.phases.set i .waiting) = 0
      rw [hc]
      exact hs.2 hl
  | acquire i hl h =>
    have hc := countCritical_set s.phases i .waiting .critical h
    simp at hc
    have h0 := hs.2 hl
    refine ⟨?_, ?_⟩
    · show countCritical (s.phases.set i .critical) ≤ 1
      omega
    · intro hfalse
      simp at hfalse
  | release i h =>
    have hc := countCritical_set s.phases i .critical .idle h
    simp at hc
    have h1 := countCritical_pos s.phases i h
    have hle := hs.1
    refine ⟨?_, ?_⟩
    · show countCritical (s.phases.set i .idle) ≤ 1
      omega
    · intro _
      show countCritical (s.phases.set i .idle) = 0
      omega

/-- C5: under every interleaving of concurrent writer acquisitions by the
request tasks (`library_post`, `library_delete`, the cascade task), every
state reachable from the initial arbiter state has at most one task holding
an open writer transaction. -/
theorem C5_writer_mutual_exclusion (n : Nat) (s : ArbState)
    (h : ArbReachable (ArbInit n) s) : countCritical s.phases ≤ 1 := by
  have hinv : ArbInv s := by
    induction h with
    | refl => exact ArbInv_init n
    | step _ hst ih => exact ArbInv_step ih hst
  exact hinv.1

/-- Witness for C5: a concrete reachable state of two tasks in which one
task has requested, acquired and holds the writer. -/
theorem C5_witness :
    countCritical (((List.replicate 2 TaskPhase.idle).set 0 .waiting).set 0
      .critical) ≤ 1 :=
  C5_writer_mutual_exclusion 2
    ⟨true, ((List.replicate 2 TaskPhase.idle).set 0 .waiting).set 0 .critical⟩
    (ArbReachable.step
      (ArbReachable.step ArbReachable.refl
        (ArbStep.request (ArbInit 2) 0 (by decide)))
      (ArbStep.acquire ⟨false, (List.replicate 2 TaskPhase.idle).set 0 .waiting⟩
        0 rfl (by decide)))
